import Mathlib

/-!
Shallow embedding of `src/engine/transaction_retry.rs` from the
solana-pumpfun-sniper-bot repository: the sell retry / fallback engine.

External effects (RPC status queries, swap builders, the blockhash cache, the
transaction submission transport, the Jupiter aggregator client) are modelled
as oracle fields of explicit environment structures; the module's own control
flow is translated function by function.  Durations are in milliseconds;
wall-clock time is threaded explicitly through the verification loop.
-/

set_option maxRecDepth 10000

namespace TransactionRetry

/-- Constant `MAX_RETRIES` from the source (line 27). -/
def MAX_RETRIES : Nat := 3

/-- Constant `RETRY_DELAY` from the source (line 30), in milliseconds. -/
def RETRY_DELAY_MS : Nat := 2000

/-- Constant `VERIFICATION_TIMEOUT` from the source (line 33), in milliseconds. -/
def VERIFICATION_TIMEOUT_MS : Nat := 30000

/-- One response of `get_signature_statuses` for the queried signature, as the
source consumes it: `known e` is a definite status whose `err` field is `e`
(present or not); `unknown` covers an `Ok` response carrying no status for the
signature; `transportErr` is an `Err` from the RPC call itself. -/
inductive QueryResult where
  | known : Option String → QueryResult
  | unknown : QueryResult
  | transportErr : String → QueryResult
deriving DecidableEq, Repr

/-- Whether a response is indefinite, i.e. drives the retry branch of the
verification loop (no status yet, or a transport error). -/
def QueryResult.isIndefinite : QueryResult → Bool
  | .known _ => false
  | .unknown => true
  | .transportErr _ => true

/-- Observable outcome of one run of the verifier: the returned value (the
source returns `Ok(bool)` on every path, so the `Except` is always `.ok`),
the number of status queries issued, and the number of 1-second sleeps. -/
structure VerifyTrace where
  result : Except String Bool
  queries : Nat
  sleeps : Nat
deriving Repr

/-- Loop body of `verify_transaction_with_retry` (source lines 54-84).
`idx` is the 0-based index of the next poll, `left` the number of loop
iterations remaining (`left = max_retries - idx`), `elapsed` the wall-clock
milliseconds consumed so far (`start_time.elapsed()` at the top of the
iteration).  `dur idx` is the duration of poll `idx`; each retry sleep adds
1000 ms.  Returns the boolean outcome together with the query and sleep
counts of the remaining iterations. -/
def verifyGo (oracle : Nat → QueryResult) (dur : Nat → Nat) :
    Nat → Nat → Nat → Bool × Nat × Nat
  | _, 0, _ => (false, 0, 0)
  | idx, left + 1, elapsed =>
    if VERIFICATION_TIMEOUT_MS < elapsed then (false, 0, 0)
    else
      match oracle idx with
      | .known none => (true, 1, 0)
      | .known (some _) => (false, 1, 0)
      | .unknown =>
        if 0 < left then
          let r := verifyGo oracle dur (idx + 1) left (elapsed + dur idx + 1000)
          (r.1, r.2.1 + 1, r.2.2 + 1)
        else (false, 1, 0)
      | .transportErr _ =>
        if 0 < left then
          let r := verifyGo oracle dur (idx + 1) left (elapsed + dur idx + 1000)
          (r.1, r.2.1 + 1, r.2.2 + 1)
        else (false, 1, 0)

/-- Function `verify_transaction_with_retry` (source lines 46-88): polls the status
oracle up to `maxRetries` times under a 30-second wall-clock budget, returning
`Ok(true)` on a definite error-free status, `Ok(false)` on a definite status
carrying an error, and `Ok(false)` when attempts or the budget run out. -/
def verify_transaction_with_retry (oracle : Nat → QueryResult) (dur : Nat → Nat)
    (maxRetries : Nat) : VerifyTrace :=
  let r := verifyGo oracle dur 0 maxRetries 0
  ⟨.ok r.1, r.2.1, r.2.2⟩

/-- Wall-clock milliseconds elapsed at the top of 0-based poll `k`, when every
earlier poll was indefinite: the durations of polls `0..k-1` plus `k` sleeps
of 1000 ms. -/
def elapsedAtTop (dur : Nat → Nat) (k : Nat) : Nat :=
  ((List.range k).map dur).sum + 1000 * k

/-- Elapsed milliseconds at the top of the k-th remaining poll when the loop
is entered at poll index `idx` with `e0` milliseconds already consumed and
every poll in between is indefinite. -/
def elapsedFrom (dur : Nat → Nat) (idx e0 k : Nat) : Nat :=
  e0 + ((List.range k).map (fun i => dur (idx + i))).sum + 1000 * k

/-- Structure `SellTransactionResult` (source lines 36-43); signatures are modelled as
their string form. -/
structure SellTransactionResult where
  success : Bool
  signature : Option String
  error : Option String
  used_jupiter_fallback : Bool
  attempt_count : Nat
deriving DecidableEq, Repr

/-- Modelled from the spec: `DexType` lives in the transaction parsing module
of the repository, which is not among the provided sources; only its three
recognized variants appear in the dispatch match of `transaction_retry.rs`
(lines 200-214), whose wildcard arm shows the enum has at least one further
variant.  Spec section 9 models venues as the closed set of three recognized
venues plus an unrecognized one. -/
inductive DexType where
  | PumpFun
  | PumpSwap
  | RaydiumLaunchpad
  | Unknown
deriving DecidableEq, Repr

/-- External-world outcomes consumed by one venue sell attempt: the three
venue builders (`build_swap_from_parsed_data`), the blockhash cache, the two
submission transports (`new_signed_and_send_with_landing_mode` and
`new_signed_and_send_zeroslot`, each returning signature strings), and
signature parsing. -/
structure VenueEnv where
  pumpfun_build : Except String Unit
  pumpswap_build : Except String Unit
  raydium_build : Except String Unit
  blockhash : Option Unit
  send_landing : Except String (List String)
  send_zeroslot : Except String (List String)
  parse_sig : String → Except String String

/-- Function `execute_pumpfun_sell_attempt` (source lines 218-253). -/
def execute_pumpfun_sell_attempt (env : VenueEnv) : Except String String :=
  match env.pumpfun_build with
  | .error e => .error ("Failed to build PumpFun swap: " ++ e)
  | .ok _ =>
    match env.blockhash with
    | none => .error "Failed to get recent blockhash"
    | some _ =>
      match env.send_landing with
      | .error e => .error ("Failed to send transaction: " ++ e)
      | .ok sigs =>
        match sigs with
        | [] => .error "No transaction signature returned"
        | s :: _ =>
          match env.parse_sig s with
          | .error e => .error ("Failed to parse signature: " ++ e)
          | .ok sig => .ok sig

/-- Function `execute_raydium_sell_attempt` (source lines 256-290); submits through the
zeroslot transport. -/
def execute_raydium_sell_attempt (env : VenueEnv) : Except String String :=
  match env.raydium_build with
  | .error e => .error ("Failed to build Raydium swap: " ++ e)
  | .ok _ =>
    match env.blockhash with
    | none => .error "Failed to get recent blockhash"
    | some _ =>
      match env.send_zeroslot with
      | .error e => .error ("Failed to send transaction: " ++ e)
      | .ok sigs =>
        match sigs with
        | [] => .error "No transaction signature returned"
        | s :: _ =>
          match env.parse_sig s with
          | .error e => .error ("Failed to parse signature: " ++ e)
          | .ok sig => .ok sig

/-- Function `execute_pumpswap_sell_attempt` (source lines 293-327). -/
def execute_pumpswap_sell_attempt (env : VenueEnv) : Except String String :=
  match env.pumpswap_build with
  | .error e => .error ("Failed to build PumpSwap swap: " ++ e)
  | .ok _ =>
    match env.blockhash with
    | none => .error "Failed to get recent blockhash"
    | some _ =>
      match env.send_landing with
      | .error e => .error ("Failed to send transaction: " ++ e)
      | .ok sigs =>
        match sigs with
        | [] => .error "No transaction signature returned"
        | s :: _ =>
          match env.parse_sig s with
          | .error e => .error ("Failed to parse signature: " ++ e)
          | .ok sig => .ok sig

/-- Function `execute_single_sell_attempt` (source lines 193-215): venue dispatch with
a wildcard arm defaulting to the PumpFun path. -/
def execute_single_sell_attempt (env : VenueEnv) (dex : DexType) :
    Except String String :=
  match dex with
  | .PumpFun => execute_pumpfun_sell_attempt env
  | .PumpSwap => execute_pumpswap_sell_attempt env
  | .RaydiumLaunchpad => execute_raydium_sell_attempt env
  | _ => execute_pumpfun_sell_attempt env

/-- Per-sell environment of the retry loop: for each 1-based attempt index,
the venue-attempt oracle outcomes and the status-polling oracle used by the
inner verification (called with a sub-budget of 5 polls). -/
structure RetryEnv where
  venue : Nat → VenueEnv
  status : Nat → Nat → QueryResult
  statusDur : Nat → Nat → Nat
  dex : DexType

/-- Observable step of the retry loop: a numbered sell attempt, or a backoff
pause of the given milliseconds. -/
inductive RetryEvent where
  | att : Nat → RetryEvent
  | pause : Nat → RetryEvent
deriving DecidableEq, Repr

/-- Outcome of one body of the retry loop at 1-based attempt `k` (source
lines 152-181): `inl sig` when build+submit and the inner 5-poll verification
both succeed, otherwise `inr lastError` with the recorded last-error text. -/
def attempt_verdict (env : RetryEnv) (k : Nat) : String ⊕ String :=
  match execute_single_sell_attempt (env.venue k) env.dex with
  | .ok sig =>
    match (verify_transaction_with_retry (env.status k) (env.statusDur k) 5).result with
    | .ok true => .inl sig
    | .ok false => .inr ("Transaction verification failed for signature: " ++ sig)
    | .error e => .inr ("Verification error: " ++ e)
  | .error e => .inr e

/-- Loop of `execute_normal_sell_with_retry` (source lines 149-189):
`attempt` is the 1-based attempt index, `left` the remaining iterations,
`lastError` the recorded last-error string.  Returns the result together with
the ordered trace of attempts and backoff pauses. -/
def normalSellGo (env : RetryEnv) :
    Nat → Nat → String → (Except String SellTransactionResult) × List RetryEvent
  | _, 0, lastError =>
    (.error ("Normal sell failed after " ++ toString MAX_RETRIES ++
      " attempts. Last error: " ++ lastError), [])
  | attempt, left + 1, _ =>
    match attempt_verdict env attempt with
    | .inl sig =>
      (.ok ⟨true, some sig, none, false, attempt⟩, [.att attempt])
    | .inr e =>
      if 0 < left then
        let r := normalSellGo env (attempt + 1) left e
        (r.1, .att attempt :: .pause RETRY_DELAY_MS :: r.2)
      else
        (.error ("Normal sell failed after " ++ toString MAX_RETRIES ++
          " attempts. Last error: " ++ e), [.att attempt])

/-- Function `execute_normal_sell_with_retry` (source lines 141-190). -/
def execute_normal_sell_with_retry (env : RetryEnv) :
    (Except String SellTransactionResult) × List RetryEvent :=
  normalSellGo env 1 MAX_RETRIES ""

/-- A venue environment in which building, the blockhash cache, submission
and parsing all succeed, yielding the signature string "SIG". -/
def okVenueEnv : VenueEnv :=
  ⟨.ok (), .ok (), .ok (), some (), .ok ["SIG"], .ok ["SIG"], fun s => .ok s⟩

/-- A venue environment whose builders all fail with "boom". -/
def failVenueEnv : VenueEnv :=
  ⟨.error "boom", .error "boom", .error "boom", some (), .ok [], .ok [],
   fun s => .ok s⟩

/-- A retry environment in which every attempt fails at the build stage. -/
def allFailRetryEnv : RetryEnv :=
  ⟨fun _ => failVenueEnv, fun _ _ => .known none, fun _ _ => 0, .PumpFun⟩

/-- A retry environment in which attempt 1 fails at the build stage and every
later attempt builds, submits, and verifies successfully. -/
def secondTryRetryEnv : RetryEnv :=
  ⟨fun k => if k = 1 then failVenueEnv else okVenueEnv,
   fun _ _ => .known none, fun _ _ => 0, .PumpFun⟩

/-- On-chain token account as consumed by the fallback path: the balance is
an unparsed decimal string (`token_account.token_amount.amount`). -/
structure TokenAccount where
  amount : String

/-- Fuel-driven floor of the base-2 logarithm: the argument halves each step,
so the fuel (initialized to the argument itself) only bounds the recursion
and keeps it structural, hence kernel-reducible. -/
def log2Go : Nat → Nat → Nat
  | 0, _ => 0
  | fuel + 1, n => if 2 <= n then log2Go fuel (n / 2) + 1 else 0

/-- Floor of the base-2 logarithm of a natural number (0 for 0). -/
def natLog2 (n : Nat) : Nat := log2Go n n

/-- Decides `2 ^ k ≤ p / q` for positive naturals `p`, `q` and an integer
exponent `k`, by exact integer comparison. -/
def pow2Le (p q : Nat) (k : Int) : Bool :=
  match k with
  | .ofNat n => q * 2 ^ n ≤ p
  | .negSucc n => q ≤ p * 2 ^ (n + 1)

/-- Floor of the base-2 logarithm of the positive rational `p / q`: the
candidate from the bit lengths of numerator and denominator is off by at
most one and is corrected by exact comparison. -/
def floorLog2 (p q : Nat) : Int :=
  let a : Int := (natLog2 p : Int) - (natLog2 q : Int)
  if pow2Le p q (a + 1) then a + 1
  else if pow2Le p q a then a
  else a - 1

/-- Rounds the fraction `n / d` (`d` positive) to the nearest integer, ties
to even — the IEEE-754 default rounding of the mantissa. -/
def roundHalfEven (n d : Nat) : Nat :=
  let q := n / d
  let r := n % d
  if 2 * r < d then q
  else if d < 2 * r then q + 1
  else if q % 2 = 0 then q else q + 1

/-- Rounds the positive rational `p / q` to the nearest IEEE-754 binary64
value (round to nearest, ties to even; subnormal exponents clamp at
`2 ^ -1074`), returned as an exact mantissa-exponent pair `(m, e)` denoting
`m * 2 ^ e`.  Values beyond the finite double range still round to 53
significant bits here; the only consumer `castU64` collapses them to the
`u64` maximum exactly as Rust casts the infinity such a product overflows
to. -/
def roundPosF64 (p q : Nat) : Nat × Int :=
  let e : Int := max (floorLog2 p q - 52) (-1074)
  let m : Nat :=
    match -e with
    | .ofNat k => roundHalfEven (p * 2 ^ k) q
    | .negSucc k => roundHalfEven p (q * 2 ^ (k + 1))
  (m, e)

/-- Rounds the rational `n / d` (`d` positive) to the nearest IEEE-754
binary64 value, as a signed mantissa-exponent pair. -/
def roundF64 (n : Int) (d : Nat) : Int × Int :=
  if n = 0 then (0, 0)
  else if 0 < n then
    let r := roundPosF64 n.toNat d
    ((r.1 : Int), r.2)
  else
    let r := roundPosF64 (-n).toNat d
    (-(r.1 : Int), r.2)

/-- IEEE-754 binary64 product of the double `m * 2 ^ e` (first argument)
with the double of exact rational value `n / d`: the exact product, rounded
once to the nearest binary64 value — which is precisely hardware `f64`
multiplication on finite operands. -/
def mulF64 (a : Int × Int) (n : Int) (d : Nat) : Int × Int :=
  match a.2 with
  | .ofNat k => roundF64 (a.1 * n * 2 ^ k) d
  | .negSucc k => roundF64 (a.1 * n) (d * 2 ^ (k + 1))

/-- Saturating `as u64` cast of a double value `m * 2 ^ e`, with Rust
semantics: truncation toward zero, negative values to 0, values at or above
`2 ^ 64` (including any whose unrounded product overflowed the double range)
to the `u64` maximum. -/
def castU64 (a : Int × Int) : Nat :=
  if a.1 < 0 then 0
  else
    match a.2 with
    | .ofNat k => min (2 ^ 64 - 1) (a.1.toNat * 2 ^ k)
    | .negSucc k => min (2 ^ 64 - 1) (a.1.toNat / 2 ^ (k + 1))

/-- Sell-amount computation of the fallback path (source lines 362-366):
sell the full balance when `amount_in >= 1.0`, otherwise compute
`((token_amount as f64) * amount_in) as u64` with IEEE-754 binary64
semantics: the balance rounded to the nearest double, multiplied by
`amount_in` with a single round-to-nearest-even, and truncated to `u64` by
Rust's saturating cast.  `amount_in` stands for the exact rational value of
a finite double (the spec's sell fraction); NaN has no rational value and no
place in the spec's data model. -/
def amount_to_sell (token_amount : Nat) (amount_in : ℚ) : Nat :=
  if 1 ≤ amount_in then token_amount
  else castU64 (mulF64 (roundF64 (token_amount : Int) 1) amount_in.num amount_in.den)

/-- Exact rational value of the binary64 double nearest 1/3:
6004799503160661 * 2 ^ -54, built in lowest terms so that its numerator and
denominator are directly computable. -/
def oneThirdF64 : ℚ := ⟨6004799503160661, 18014398509481984, by decide, by decide⟩

/-- Exact rational value of the double 0.25, built in lowest terms. -/
def qQuarter : ℚ := ⟨1, 4, by decide, by decide⟩

/-- External-world outcomes consumed by `execute_jupiter_fallback_sell`:
wallet pubkey resolution, mint parsing, the holding-account query, `u64`
parsing of the balance string, the Jupiter client `sell_token` call (keyed by
the computed amount; the returned estimated proceeds are only logged and are
dropped), signature parsing, and the status oracle of the inner 5-poll
verification. -/
structure JupiterEnv where
  try_pubkey : Except String Unit
  parse_mint : String → Except String Unit
  get_token_account : Except String (Option TokenAccount)
  parse_u64 : String → Except String Nat
  sell_token : Nat → Except String String
  parse_sig : String → Except String String
  status : Nat → QueryResult
  statusDur : Nat → Nat

/-- Function `execute_jupiter_fallback_sell` (source lines 330-399).  Besides the
result, returns the list of amounts passed to the Jupiter client, in call
order (empty exactly when the client was never invoked). -/
def execute_jupiter_fallback_sell (env : JupiterEnv) (mint : String)
    (amount_in : ℚ) : (Except String String) × List Nat :=
  match env.try_pubkey with
  | .error e => (.error ("Failed to get wallet pubkey: " ++ e), [])
  | .ok _ =>
    match env.parse_mint mint with
    | .error e => (.error ("Invalid token mint address: " ++ e), [])
    | .ok _ =>
      match env.get_token_account with
      | .error e => (.error ("Failed to get token account: " ++ e), [])
      | .ok none => (.error "Token account not found", [])
      | .ok (some acct) =>
        match env.parse_u64 acct.amount with
        | .error e => (.error ("Failed to parse token amount: " ++ e), [])
        | .ok token_amount =>
          if token_amount = 0 then (.error "No tokens to sell", [])
          else
            let amt := amount_to_sell token_amount amount_in
            match env.sell_token amt with
            | .error e => (.error ("Jupiter API sell failed: " ++ e), [amt])
            | .ok sigStr =>
              match env.parse_sig sigStr with
              | .error e => (.error ("Failed to parse signature: " ++ e), [amt])
              | .ok sig =>
                match (verify_transaction_with_retry env.status env.statusDur 5).result with
                | .ok true => (.ok sig, [amt])
                | .ok false => (.error "Jupiter transaction verification failed", [amt])
                | .error e =>
                  (.error ("Jupiter transaction verification error: " ++ e), [amt])

/-- Environment of one top-level sell: the retry-path environment, the
fallback-path environment, and the trade's mint and sell fraction. -/
structure FallbackEnv where
  retry : RetryEnv
  jup : JupiterEnv
  mint : String
  amount_in : ℚ

/-- Function `execute_sell_with_retry_and_fallback` (source lines 91-138).  Besides
the result, returns how many times the Jupiter fallback path was entered. -/
def execute_sell_with_retry_and_fallback (env : FallbackEnv) :
    (Except String SellTransactionResult) × Nat :=
  let runFallback : (Except String SellTransactionResult) × Nat :=
    match execute_jupiter_fallback_sell env.jup env.mint env.amount_in with
    | (.ok sig, _) =>
      (.ok ⟨true, some sig, none, true, MAX_RETRIES + 1⟩, 1)
    | (.error e, _) =>
      (.ok ⟨false, none, some ("All sell attempts failed. Last error: " ++ e),
        true, MAX_RETRIES + 1⟩, 1)
  match (execute_normal_sell_with_retry env.retry).1 with
  | .ok result => if result.success then (.ok result, 0) else runFallback
  | .error _ => runFallback

/-- The documented invariant of `SellTransactionResult` values. -/
def resultInvariant (r : SellTransactionResult) : Prop :=
  (r.success = true → r.signature.isSome = true) ∧
  (r.success = false → r.error.isSome = true)

/-- A fallback-path environment holding 1,000,000 units whose aggregator call
and verification succeed, producing signature "JSIG". -/
def jupOkEnv : JupiterEnv :=
  ⟨.ok (), fun _ => .ok (), .ok (some ⟨"1000000"⟩), fun _ => .ok 1000000,
   fun _ => .ok "JSIG", fun s => .ok s, fun _ => .known none, fun _ => 0⟩

/-- A fallback-path environment whose holding balance is zero. -/
def jupZeroEnv : JupiterEnv :=
  ⟨.ok (), fun _ => .ok (), .ok (some ⟨"0"⟩), fun _ => .ok 0,
   fun _ => .ok "JSIG", fun s => .ok s, fun _ => .known none, fun _ => 0⟩

/-- A top-level environment whose retry path always fails at the build stage
and whose fallback path succeeds. -/
def fbEnv : FallbackEnv :=
  ⟨allFailRetryEnv, jupOkEnv, "MINT", 1⟩

/-- C1: if the first poll returns a definite status, the verifier terminates
after exactly one query and no sleeps, returning `Ok(true)` exactly when the
status carries no on-chain error. -/
theorem verify_definite_first_poll (oracle : Nat → QueryResult) (dur : Nat → Nat)
    (maxRetries : Nat) (st : Option String)
    (hmax : 1 ≤ maxRetries) (hfirst : oracle 0 = .known st) :
    (verify_transaction_with_retry oracle dur maxRetries).result = .ok st.isNone ∧
    (verify_transaction_with_retry oracle dur maxRetries).queries = 1 ∧
    (verify_transaction_with_retry oracle dur maxRetries).sleeps = 0 := by
  obtain ⟨l, rfl⟩ : ∃ l, maxRetries = l + 1 :=
    ⟨maxRetries - 1, (Nat.succ_pred_eq_of_pos hmax).symm⟩
  cases st with
  | none =>
    simp [verify_transaction_with_retry, verifyGo, hfirst, VERIFICATION_TIMEOUT_MS]
  | some e =>
    simp [verify_transaction_with_retry, verifyGo, hfirst, VERIFICATION_TIMEOUT_MS]

/-- Witness for C1 at a concrete oracle whose first poll is a definite
error-free status. -/
theorem verify_definite_first_poll_witness :
    (verify_transaction_with_retry (fun _ => .known none) (fun _ => 0) 5).result =
      .ok (Option.isNone (none : Option String)) ∧
    (verify_transaction_with_retry (fun _ => .known none) (fun _ => 0) 5).queries = 1 ∧
    (verify_transaction_with_retry (fun _ => .known none) (fun _ => 0) 5).sleeps = 0 :=
  verify_definite_first_poll (fun _ => .known none) (fun _ => 0) 5 none
    (by decide) rfl

lemma elapsedFrom_zero (dur : Nat → Nat) (idx e0 : Nat) :
    elapsedFrom dur idx e0 0 = e0 := by
  simp [elapsedFrom]

lemma elapsedFrom_succ (dur : Nat → Nat) (idx e0 k : Nat) :
    elapsedFrom dur idx e0 (k + 1) =
      elapsedFrom dur (idx + 1) (e0 + dur idx + 1000) k := by
  have hfun : (fun i => dur (idx + i)) ∘ Nat.succ = fun i => dur ((idx + 1) + i) := by
    funext i
    simp only [Function.comp_apply]
    congr 1
    omega
  simp only [elapsedFrom, List.range_succ_eq_map, List.map_cons, List.map_map,
    List.sum_cons, hfun, Nat.add_zero]
  ring

lemma elapsedFrom_base (dur : Nat → Nat) (k : Nat) :
    elapsedFrom dur 0 0 k = elapsedAtTop dur k := by
  simp [elapsedFrom, elapsedAtTop, Nat.zero_add]

lemma verifyGo_indef_last (oracle : Nat → QueryResult) (dur : Nat → Nat)
    (idx e0 : Nat) (hc : ¬ VERIFICATION_TIMEOUT_MS < e0)
    (hi : (oracle idx).isIndefinite = true) :
    verifyGo oracle dur idx 1 e0 = (false, 1, 0) := by
  cases hoi : oracle idx with
  | known st => rw [hoi] at hi; simp [QueryResult.isIndefinite] at hi
  | unknown => simp [verifyGo, hc, hoi]
  | transportErr e => simp [verifyGo, hc, hoi]

lemma verifyGo_indef_step (oracle : Nat → QueryResult) (dur : Nat → Nat)
    (idx e0 l : Nat) (hl : 0 < l) (hc : ¬ VERIFICATION_TIMEOUT_MS < e0)
    (hi : (oracle idx).isIndefinite = true) :
    verifyGo oracle dur idx (l + 1) e0 =
      ((verifyGo oracle dur (idx + 1) l (e0 + dur idx + 1000)).1,
       (verifyGo oracle dur (idx + 1) l (e0 + dur idx + 1000)).2.1 + 1,
       (verifyGo oracle dur (idx + 1) l (e0 + dur idx + 1000)).2.2 + 1) := by
  cases hoi : oracle idx with
  | known st => rw [hoi] at hi; simp [QueryResult.isIndefinite] at hi
  | unknown => simp [verifyGo, hc, hoi, hl]
  | transportErr e => simp [verifyGo, hc, hoi, hl]

lemma verifyGo_timeout (oracle : Nat → QueryResult) (dur : Nat → Nat)
    (idx e0 l : Nat) (hc : VERIFICATION_TIMEOUT_MS < e0) :
    verifyGo oracle dur idx (l + 1) e0 = (false, 0, 0) := by
  simp [verifyGo, hc]

/-- Loop invariant for a status oracle that never yields a definite status:
the loop returns `false`; when the budget is never exceeded at a loop top it
performs all remaining polls with one fewer sleep, and when the budget is
first exceeded at remaining-poll index `K` it stops there having performed
`K` polls and `K` sleeps. -/
lemma verifyGo_indefinite (oracle : Nat → QueryResult) (dur : Nat → Nat)
    (h : ∀ i, (oracle i).isIndefinite = true) (l : Nat) :
    ∀ idx e0,
      (verifyGo oracle dur idx l e0).1 = false ∧
      ((∀ k, k < l → elapsedFrom dur idx e0 k ≤ VERIFICATION_TIMEOUT_MS) →
        (verifyGo oracle dur idx l e0).2 = (l, l - 1)) ∧
      (∀ K, K < l → VERIFICATION_TIMEOUT_MS < elapsedFrom dur idx e0 K →
        (∀ j, j < K → elapsedFrom dur idx e0 j ≤ VERIFICATION_TIMEOUT_MS) →
        (verifyGo oracle dur idx l e0).2 = (K, K)) := by
  induction l with
  | zero =>
    intro idx e0
    exact ⟨rfl, fun _ => rfl, fun K hK => absurd hK (Nat.not_lt_zero K)⟩
  | succ l ih =>
    intro idx e0
    by_cases he : VERIFICATION_TIMEOUT_MS < e0
    · have hgo := verifyGo_timeout oracle dur idx e0 l he
      refine ⟨by rw [hgo], ?_, ?_⟩
      · intro hbudget
        have h0 := hbudget 0 (Nat.succ_pos l)
        rw [elapsedFrom_zero] at h0
        omega
      · intro K hK hKtime hKmin
        cases K with
        | zero => rw [hgo]
        | succ K =>
          have h0 := hKmin 0 (Nat.succ_pos K)
          rw [elapsedFrom_zero] at h0
          omega
    · cases l with
      | zero =>
        have hgo := verifyGo_indef_last oracle dur idx e0 he (h idx)
        refine ⟨by rw [hgo], fun _ => by rw [hgo], ?_⟩
        intro K hK hKtime _
        interval_cases K
        rw [elapsedFrom_zero] at hKtime
        omega
      | succ l =>
        have hgo := verifyGo_indef_step oracle dur idx e0 (l + 1) (Nat.succ_pos l)
          he (h idx)
        obtain ⟨ih1, ih2, ih3⟩ := ih (idx + 1) (e0 + dur idx + 1000)
        refine ⟨by rw [hgo]; exact ih1, ?_, ?_⟩
        · intro hbudget
          have hrec : (verifyGo oracle dur (idx + 1) (l + 1)
              (e0 + dur idx + 1000)).2 = (l + 1, l + 1 - 1) := by
            refine ih2 ?_
            intro k hk
            rw [← elapsedFrom_succ]
            exact hbudget (k + 1) (by omega)
          rw [hgo, hrec]
          simp
        · intro K hK hKtime hKmin
          cases K with
          | zero =>
            rw [elapsedFrom_zero] at hKtime
            omega
          | succ K =>
            have hrec : (verifyGo oracle dur (idx + 1) (l + 1)
                (e0 + dur idx + 1000)).2 = (K, K) := by
              refine ih3 K (by omega) ?_ ?_
              · rw [← elapsedFrom_succ]
                exact hKtime
              · intro j hj
                rw [← elapsedFrom_succ]
                exact hKmin (j + 1) (by omega)
            rw [hgo, hrec]

/-- C7: for a status oracle that always answers with no status or a transport
error, the verifier returns `false` as a value (never a raised error); it
performs all `maxRetries` polls with `maxRetries - 1` interleaved 1-second
sleeps when the 30-second budget is never exceeded at a loop top, and stops
after exactly `K` polls and `K` sleeps when the budget is first exceeded at
the top of poll `K` with `K < maxRetries`. -/
theorem verify_always_indefinite (oracle : Nat → QueryResult) (dur : Nat → Nat)
    (maxRetries : Nat) (h : ∀ i, (oracle i).isIndefinite = true) :
    (verify_transaction_with_retry oracle dur maxRetries).result = .ok false ∧
    ((∀ k, k < maxRetries → elapsedAtTop dur k ≤ VERIFICATION_TIMEOUT_MS) →
      (verify_transaction_with_retry oracle dur maxRetries).queries = maxRetries ∧
      (verify_transaction_with_retry oracle dur maxRetries).sleeps = maxRetries - 1) ∧
    (∀ K, K < maxRetries → VERIFICATION_TIMEOUT_MS < elapsedAtTop dur K →
      (∀ j, j < K → elapsedAtTop dur j ≤ VERIFICATION_TIMEOUT_MS) →
      (verify_transaction_with_retry oracle dur maxRetries).queries = K ∧
      (verify_transaction_with_retry oracle dur maxRetries).sleeps = K) := by
  obtain ⟨h1, h2, h3⟩ := verifyGo_indefinite oracle dur h maxRetries 0 0
  refine ⟨?_, ?_, ?_⟩
  · simp [verify_transaction_with_retry, h1]
  · intro hbudget
    have hq := h2 (fun k hk => by
      rw [elapsedFrom_base]
      exact hbudget k hk)
    simp [verify_transaction_with_retry]
    constructor
    · rw [hq]
    · rw [hq]
  · intro K hK hKtime hKmin
    have hq := h3 K hK (by rw [elapsedFrom_base]; exact hKtime)
      (fun j hj => by rw [elapsedFrom_base]; exact hKmin j hj)
    simp [verify_transaction_with_retry]
    constructor
    · rw [hq]
    · rw [hq]

/-- Witness for C7: an always-unknown oracle with instantaneous queries and
`maxRetries = 5` exhausts all 5 polls with 4 sleeps and yields `Ok(false)`. -/
theorem verify_always_indefinite_witness :
    (verify_transaction_with_retry (fun _ => .unknown) (fun _ => 0) 5).result =
      .ok false ∧
    (verify_transaction_with_retry (fun _ => .unknown) (fun _ => 0) 5).queries = 5 ∧
    (verify_transaction_with_retry (fun _ => .unknown) (fun _ => 0) 5).sleeps = 4 := by
  have h := verify_always_indefinite (fun _ => .unknown) (fun _ => 0) 5
    (fun i => rfl)
  refine ⟨h.1, h.2.1 ?_⟩
  intro k hk
  interval_cases k <;> simp [elapsedAtTop, VERIFICATION_TIMEOUT_MS, List.range_succ]

/-- C10: dispatching a trade whose venue variant is unrecognized runs exactly
the PumpFun (first-listed venue) path, for every environment: the results
coincide. -/
theorem unknown_venue_dispatch (env : VenueEnv) :
    execute_single_sell_attempt env .Unknown =
      execute_single_sell_attempt env .PumpFun := rfl

/-- C4: when every attempt body fails (with last-error texts `e1`, `e2`,
`e3`), the retry loop performs exactly 3 attempts separated by two 2000 ms
pauses (none after the last) and fails with the aggregated error naming the
ceiling 3 and exactly the final failure text. -/
theorem retry_exhaustion (env : RetryEnv) (e1 e2 e3 : String)
    (h1 : attempt_verdict env 1 = .inr e1)
    (h2 : attempt_verdict env 2 = .inr e2)
    (h3 : attempt_verdict env 3 = .inr e3) :
    execute_normal_sell_with_retry env =
      (.error ("Normal sell failed after 3 attempts. Last error: " ++ e3),
       [.att 1, .pause 2000, .att 2, .pause 2000, .att 3]) := by
  simp [execute_normal_sell_with_retry, normalSellGo, MAX_RETRIES, RETRY_DELAY_MS,
    h1, h2, h3]
  rfl

/-- Witness for C4 at an environment whose PumpFun build fails on every
attempt. -/
theorem retry_exhaustion_witness :
    execute_normal_sell_with_retry allFailRetryEnv =
      (.error ("Normal sell failed after 3 attempts. Last error: " ++
        "Failed to build PumpFun swap: boom"),
       [.att 1, .pause 2000, .att 2, .pause 2000, .att 3]) :=
  retry_exhaustion allFailRetryEnv
    "Failed to build PumpFun swap: boom"
    "Failed to build PumpFun swap: boom"
    "Failed to build PumpFun swap: boom"
    rfl rfl rfl

/-- C5: if attempts `1..k-1` fail and attempt `k` (within the ceiling)
builds, submits and verifies successfully, the retry loop returns success
immediately with `attempt_count = k`, `used_jupiter_fallback = false`, and no
attempt `k+1` appears in the trace. -/
theorem retry_early_success (env : RetryEnv) (k : Nat) (sig : String)
    (hk1 : 1 ≤ k) (hk3 : k ≤ MAX_RETRIES)
    (hfail : ∀ j, 1 ≤ j → j < k → (attempt_verdict env j).isRight = true)
    (hsucc : attempt_verdict env k = .inl sig) :
    (execute_normal_sell_with_retry env).1 = .ok ⟨true, some sig, none, false, k⟩ ∧
    RetryEvent.att (k + 1) ∉ (execute_normal_sell_with_retry env).2 := by
  have hk3' : k ≤ 3 := hk3
  interval_cases k
  · simp [execute_normal_sell_with_retry, normalSellGo, MAX_RETRIES, hsucc]
  · obtain ⟨e1, he1⟩ := Sum.isRight_iff.mp (hfail 1 (by omega) (by omega))
    simp [execute_normal_sell_with_retry, normalSellGo, MAX_RETRIES,
      RETRY_DELAY_MS, he1, hsucc]
  · obtain ⟨e1, he1⟩ := Sum.isRight_iff.mp (hfail 1 (by omega) (by omega))
    obtain ⟨e2, he2⟩ := Sum.isRight_iff.mp (hfail 2 (by omega) (by omega))
    simp [execute_normal_sell_with_retry, normalSellGo, MAX_RETRIES,
      RETRY_DELAY_MS, he1, he2, hsucc]

/-- Witness for C5: attempt 1 fails at the build stage, attempt 2 succeeds,
so the loop stops at `attempt_count = 2` with no third attempt. -/
theorem retry_early_success_witness :
    (execute_normal_sell_with_retry secondTryRetryEnv).1 =
      .ok ⟨true, some "SIG", none, false, 2⟩ ∧
    RetryEvent.att 3 ∉ (execute_normal_sell_with_retry secondTryRetryEnv).2 :=
  retry_early_success secondTryRetryEnv 2 "SIG" (by decide) (by decide)
    (by
      intro j hj1 hj2
      have : j = 1 := by omega
      subst this
      rfl)
    rfl

lemma normalSellGo_succ_inl (env : RetryEnv) (attempt l : Nat)
    (lastError sig : String)
    (hv : attempt_verdict env attempt = .inl sig) :
    normalSellGo env attempt (l + 1) lastError =
      (.ok ⟨true, some sig, none, false, attempt⟩, [.att attempt]) := by
  simp [normalSellGo, hv]

lemma normalSellGo_succ_inr_step (env : RetryEnv) (attempt l : Nat)
    (lastError e : String) (hv : attempt_verdict env attempt = .inr e)
    (hl : 0 < l) :
    normalSellGo env attempt (l + 1) lastError =
      ((normalSellGo env (attempt + 1) l e).1,
       .att attempt :: .pause RETRY_DELAY_MS :: (normalSellGo env (attempt + 1) l e).2) := by
  simp [normalSellGo, hv, hl]

lemma normalSellGo_succ_inr_last (env : RetryEnv) (attempt : Nat)
    (lastError e : String) (hv : attempt_verdict env attempt = .inr e) :
    normalSellGo env attempt 1 lastError =
      (.error ("Normal sell failed after " ++ toString MAX_RETRIES ++
        " attempts. Last error: " ++ e), [.att attempt]) := by
  simp [normalSellGo, hv]

/-- Every result the retry loop returns through `Ok` satisfies the
`SellTransactionResult` invariant. -/
lemma normalSellGo_invariant (env : RetryEnv) (l : Nat) :
    ∀ attempt lastError r,
      (normalSellGo env attempt l lastError).1 = .ok r → resultInvariant r := by
  induction l with
  | zero =>
    intro attempt lastError r h
    simp [normalSellGo] at h
  | succ l ih =>
    intro attempt lastError r h
    cases hv : attempt_verdict env attempt with
    | inl sig =>
      rw [normalSellGo_succ_inl env attempt l lastError sig hv] at h
      obtain rfl := Except.ok.inj h
      exact ⟨fun _ => rfl, fun hf => nomatch hf⟩
    | inr e =>
      by_cases hl : 0 < l
      · rw [normalSellGo_succ_inr_step env attempt l lastError e hv hl] at h
        exact ih (attempt + 1) e r h
      · have hl0 : l = 0 := by omega
        subst hl0
        rw [normalSellGo_succ_inr_last env attempt lastError e hv] at h
        simp at h

/-- C2: the top-level entry point never returns a hard error: for every
environment the returned value is a well-formed `Ok` outcome. -/
theorem execute_sell_never_errors (env : FallbackEnv) :
    ∃ r, (execute_sell_with_retry_and_fallback env).1 = .ok r := by
  rcases hj : execute_jupiter_fallback_sell env.jup env.mint env.amount_in with
    ⟨resj, callsj⟩
  cases h : (execute_normal_sell_with_retry env.retry).1 with
  | ok result =>
    by_cases hs : result.success = true
    · exact ⟨result, by simp [execute_sell_with_retry_and_fallback, h, hs]⟩
    · cases resj with
      | ok sig =>
        exact ⟨⟨true, some sig, none, true, MAX_RETRIES + 1⟩,
          by simp [execute_sell_with_retry_and_fallback, h, hs, hj]⟩
      | error e =>
        exact ⟨⟨false, none, some ("All sell attempts failed. Last error: " ++ e),
            true, MAX_RETRIES + 1⟩,
          by simp [execute_sell_with_retry_and_fallback, h, hs, hj]⟩
  | error e0 =>
    cases resj with
    | ok sig =>
      exact ⟨⟨true, some sig, none, true, MAX_RETRIES + 1⟩,
        by simp [execute_sell_with_retry_and_fallback, h, hj]⟩
    | error e =>
      exact ⟨⟨false, none, some ("All sell attempts failed. Last error: " ++ e),
          true, MAX_RETRIES + 1⟩,
        by simp [execute_sell_with_retry_and_fallback, h, hj]⟩

/-- C3: when the retry path is exhausted (unsuccessful outcome or hard
error), the fallback path is entered exactly once; on fallback success the
outcome carries `used_jupiter_fallback = true`, the fallback signature, and
the sentinel `attempt_count = 4`; on fallback failure the outcome is
unsuccessful with the same flags and an error message embedding the
fallback's own error. -/
theorem fallback_behavior (env : FallbackEnv)
    (hexhausted : ∀ r, (execute_normal_sell_with_retry env.retry).1 = .ok r →
      r.success = false) :
    (execute_sell_with_retry_and_fallback env).2 = 1 ∧
    (∀ sig calls,
      execute_jupiter_fallback_sell env.jup env.mint env.amount_in =
        (.ok sig, calls) →
      (execute_sell_with_retry_and_fallback env).1 =
        .ok ⟨true, some sig, none, true, 4⟩) ∧
    (∀ e calls,
      execute_jupiter_fallback_sell env.jup env.mint env.amount_in =
        (.error e, calls) →
      (execute_sell_with_retry_and_fallback env).1 =
        .ok ⟨false, none, some ("All sell attempts failed. Last error: " ++ e),
          true, 4⟩) := by
  refine ⟨?_, ?_, ?_⟩
  · rcases hj : execute_jupiter_fallback_sell env.jup env.mint env.amount_in with
      ⟨resj, callsj⟩
    cases h : (execute_normal_sell_with_retry env.retry).1 with
    | ok result =>
      have hs := hexhausted result h
      cases resj <;>
        simp [execute_sell_with_retry_and_fallback, h, hs, hj]
    | error e0 =>
      cases resj <;> simp [execute_sell_with_retry_and_fallback, h, hj]
  · intro sig calls hjeq
    cases h : (execute_normal_sell_with_retry env.retry).1 with
    | ok result =>
      have hs := hexhausted result h
      simp [execute_sell_with_retry_and_fallback, h, hs, hjeq, MAX_RETRIES]
    | error e0 =>
      simp [execute_sell_with_retry_and_fallback, h, hjeq, MAX_RETRIES]
  · intro e calls hjeq
    cases h : (execute_normal_sell_with_retry env.retry).1 with
    | ok result =>
      have hs := hexhausted result h
      simp [execute_sell_with_retry_and_fallback, h, hs, hjeq, MAX_RETRIES]
    | error e0 =>
      simp [execute_sell_with_retry_and_fallback, h, hjeq, MAX_RETRIES]

/-- Witness for C3: the retry path always fails at the build stage, the
fallback succeeds, and the outcome is the sentinel success shape. -/
theorem fallback_behavior_witness :
    (execute_sell_with_retry_and_fallback fbEnv).2 = 1 ∧
    (execute_sell_with_retry_and_fallback fbEnv).1 =
      .ok ⟨true, some "JSIG", none, true, 4⟩ := by
  have h := fallback_behavior fbEnv (fun r hr => nomatch hr)
  exact ⟨h.1, h.2.1 "JSIG" [1000000] rfl⟩

/-- C6: every `SellTransactionResult` returned through `Ok` by the retry
orchestrator or by the top-level entry point satisfies the invariant:
success implies a signature is present, failure implies an error message is
present. -/
theorem sell_outcome_invariant (envR : RetryEnv) (envF : FallbackEnv)
    (r s : SellTransactionResult)
    (hr : (execute_normal_sell_with_retry envR).1 = .ok r)
    (hs : (execute_sell_with_retry_and_fallback envF).1 = .ok s) :
    resultInvariant r ∧ resultInvariant s := by
  refine ⟨normalSellGo_invariant envR MAX_RETRIES 1 "" r hr, ?_⟩
  rcases hj : execute_jupiter_fallback_sell envF.jup envF.mint envF.amount_in with
    ⟨resj, callsj⟩
  simp only [execute_sell_with_retry_and_fallback] at hs
  cases h : (execute_normal_sell_with_retry envF.retry).1 with
  | ok result =>
    rw [h] at hs
    by_cases hsucc : result.success = true
    · simp [hsucc] at hs
      subst hs
      exact normalSellGo_invariant envF.retry MAX_RETRIES 1 "" result h
    · rw [hj] at hs
      cases resj with
      | ok sig =>
        simp [hsucc] at hs
        subst hs
        simp [resultInvariant]
      | error e =>
        simp [hsucc] at hs
        subst hs
        simp [resultInvariant]
  | error e0 =>
    rw [h, hj] at hs
    cases resj with
    | ok sig =>
      simp at hs
      subst hs
      simp [resultInvariant]
    | error e =>
      simp at hs
      subst hs
      simp [resultInvariant]

/-- Witness for C6 at the concrete outcomes of the early-success retry
environment and the fallback-success top-level environment. -/
theorem sell_outcome_invariant_witness :
    resultInvariant ⟨true, some "SIG", none, false, 2⟩ ∧
    resultInvariant ⟨true, some "JSIG", none, true, 4⟩ :=
  sell_outcome_invariant secondTryRetryEnv fbEnv
    ⟨true, some "SIG", none, false, 2⟩ ⟨true, some "JSIG", none, true, 4⟩
    rfl rfl

/-- When the balance query resolves to a positive balance, the fallback path
invokes the aggregator client exactly once, with the computed sell amount. -/
lemma jupiter_fallback_calls (env : JupiterEnv) (mint : String) (q : ℚ)
    (acct : TokenAccount) (b : Nat)
    (hw : env.try_pubkey = .ok ()) (hm : env.parse_mint mint = .ok ())
    (ha : env.get_token_account = .ok (some acct))
    (hb : env.parse_u64 acct.amount = .ok b) (hpos : 0 < b) :
    (execute_jupiter_fallback_sell env mint q).2 = [amount_to_sell b q] := by
  have hne : ¬ b = 0 := by omega
  simp only [execute_jupiter_fallback_sell, hw, hm, ha, hb, hne, if_false]
  cases hsell : env.sell_token (amount_to_sell b q) with
  | error e => simp [hsell]
  | ok sigStr =>
    simp only [hsell]
    cases hp : env.parse_sig sigStr with
    | error e => simp [hp]
    | ok sig =>
      simp only [hp]
      cases hvr : (verify_transaction_with_retry env.status env.statusDur 5).result with
      | error e => simp [hvr]
      | ok bv => cases bv <;> simp [hvr]

/-- C8, counterexample: the exact-floor clause of the claim fails on the
code.  At balance 3 with `amount_in` the double nearest 1/3 (value
6004799503160661 * 2 ^ -54), the IEEE product `3.0 * amount_in` is
(2 ^ 54 - 1) / 2 ^ 54, a round-to-even tie between two adjacent doubles that
rounds up to exactly 1.0, so the code sells 1 token — while the floor of the
exact product is 0. -/
theorem sell_size_floor_counterexample :
    oneThirdF64 = 6004799503160661 / 18014398509481984 ∧
    amount_to_sell 3 oneThirdF64 = 1 ∧
    (⌊(3 : ℚ) * oneThirdF64⌋).toNat = 0 ∧
    amount_to_sell 3 oneThirdF64 ≠ (⌊(3 : ℚ) * oneThirdF64⌋).toNat := by
  have hval : oneThirdF64 = 6004799503160661 / 18014398509481984 := by
    rw [show oneThirdF64 = ((oneThirdF64.num : ℚ) / (oneThirdF64.den : ℚ)) from
      (Rat.num_div_den oneThirdF64).symm]
    norm_num [oneThirdF64]
  have hcode : amount_to_sell 3 oneThirdF64 = 1 := by decide
  have hfloor : (⌊(3 : ℚ) * oneThirdF64⌋).toNat = 0 := by
    rw [hval]
    norm_num
  exact ⟨hval, hcode, hfloor, by rw [hcode, hfloor]; decide⟩

/-- C8 (amended): for a positive balance `b`, the fallback invokes the
aggregator client with exactly the computed amount; the amount is the full
balance when the sell fraction is at least 1, and otherwise the IEEE-754
binary64 product of the balance and the fraction, truncated to `u64` by the
saturating cast — in particular balance 1,000,000 with fraction 1/4 (the
double 0.25) yields exactly 250,000, and fractions 1 and 2 yield the full
1,000,000. -/
theorem sell_size_computation_f64 (env : JupiterEnv) (mint : String) (q : ℚ)
    (acct : TokenAccount) (b : Nat)
    (hw : env.try_pubkey = .ok ()) (hm : env.parse_mint mint = .ok ())
    (ha : env.get_token_account = .ok (some acct))
    (hb : env.parse_u64 acct.amount = .ok b) (hpos : 0 < b) :
    (execute_jupiter_fallback_sell env mint q).2 = [amount_to_sell b q] ∧
    (1 ≤ q → amount_to_sell b q = b) ∧
    (¬ 1 ≤ q → amount_to_sell b q =
      castU64 (mulF64 (roundF64 (b : Int) 1) q.num q.den)) ∧
    qQuarter = 1 / 4 ∧
    amount_to_sell 1000000 qQuarter = 250000 ∧
    amount_to_sell 1000000 1 = 1000000 ∧
    amount_to_sell 1000000 2 = 1000000 := by
  refine ⟨jupiter_fallback_calls env mint q acct b hw hm ha hb hpos,
    ?_, ?_, ?_, by decide, by decide, by decide⟩
  · intro h1
    simp [amount_to_sell, h1]
  · intro hlt
    simp [amount_to_sell, hlt]
  · rw [show qQuarter = ((qQuarter.num : ℚ) / (qQuarter.den : ℚ)) from
      (Rat.num_div_den qQuarter).symm]
    norm_num [qQuarter]

/-- Witness for C8 at a concrete environment holding 1,000,000 units and a
sell fraction of 0.25. -/
theorem sell_size_computation_f64_witness :
    (execute_jupiter_fallback_sell jupOkEnv "MINT" qQuarter).2 =
      [amount_to_sell 1000000 qQuarter] ∧
    amount_to_sell 1000000 qQuarter = 250000 := by
  have h := sell_size_computation_f64 jupOkEnv "MINT" qQuarter ⟨"1000000"⟩ 1000000
    rfl rfl rfl rfl (by decide)
  exact ⟨h.1, h.2.2.2.2.1⟩

/-- C9: with a successfully queried balance, the fallback fails with the
domain error "No tokens to sell" before invoking the aggregator client
exactly when the balance is zero; for every positive balance the client is
invoked (exactly once), even when the computed amount floors to zero. -/
theorem zero_balance_guard (env : JupiterEnv) (mint : String) (q : ℚ)
    (acct : TokenAccount) (b : Nat)
    (hw : env.try_pubkey = .ok ()) (hm : env.parse_mint mint = .ok ())
    (ha : env.get_token_account = .ok (some acct))
    (hb : env.parse_u64 acct.amount = .ok b) :
    (b = 0 →
      execute_jupiter_fallback_sell env mint q = (.error "No tokens to sell", [])) ∧
    (0 < b → (execute_jupiter_fallback_sell env mint q).2.length = 1) := by
  constructor
  · intro h0
    subst h0
    simp [execute_jupiter_fallback_sell, hw, hm, ha, hb]
  · intro hpos
    rw [jupiter_fallback_calls env mint q acct b hw hm ha hb hpos]
    rfl

/-- Witness for C9: a zero balance fails before the aggregator client is
invoked. -/
theorem zero_balance_guard_witness :
    execute_jupiter_fallback_sell jupZeroEnv "MINT" 1 =
      (.error "No tokens to sell", []) :=
  (zero_balance_guard jupZeroEnv "MINT" 1 ⟨"0"⟩ 0 rfl rfl rfl rfl).1 rfl

end TransactionRetry

